import Mathlib

/-!
Shallow embedding of the N-body simulation engine from the ComputeCpp SDK
demos (`src/demos/nbody/sim.hpp` and `src/demos/include/double_buf.hpp`).
Floating-point numbers (`num_t`) are idealized as the real numbers; SYCL
buffers are idealized as total functions from indices to values; the
Mersenne-Twister random stream is idealized as a stream of unit draws in
`[0, 1]`, with `std::uniform_real_distribution(a, b)` mapping a unit draw
`u` to `a + u * (b - a)`.
-/

namespace NBody

/-- Model of `vec3<num_t> = sycl::vec<num_t, 3>`: a triple of reals. -/
abbrev Vec3 : Type := ℝ × ℝ × ℝ

namespace Vec3

/-- The x component of a 3-vector. -/
def x (v : Vec3) : ℝ := v.1

/-- The y component of a 3-vector. -/
def y (v : Vec3) : ℝ := v.2.1

/-- The z component of a 3-vector. -/
def z (v : Vec3) : ℝ := v.2.2

end Vec3

/-- Componentwise division of a vector by a scalar, as in `diff / scalar`
in the SYCL kernel. -/
noncomputable instance : HDiv Vec3 ℝ Vec3 :=
  ⟨fun v c => (v.x / c, v.y / c, v.z / c)⟩

/-- Euclidean length as computed in the kernel:
`sycl::sqrt(d.x*d.x + d.y*d.y + d.z*d.z)`. -/
noncomputable def norm3 (v : Vec3) : ℝ :=
  Real.sqrt (v.x * v.x + v.y * v.y + v.z * v.z)

/-- Model of `std::uniform_real_distribution<num_t>(a, b)` applied to one
unit draw `u ∈ [0, 1]` of the random stream: the affine map `a + u*(b-a)`. -/
def unif (a b u : ℝ) : ℝ := a + u * (b - a)

/-! ## DoubleBuf (`src/demos/include/double_buf.hpp`) -/

/-- The role flag of the double buffer (`enum class Buffer`). -/
inductive Buffer : Type
  | USE_A
  | USE_B
deriving DecidableEq, Repr

/-- Model of `DoubleBuf<T>`: a role flag plus two owned instances. -/
structure DoubleBuf (T : Type) : Type where
  buffer : Buffer
  m_a : T
  m_b : T

namespace DoubleBuf

variable {T : Type}

/-- The constructor `DoubleBuf(U&&... vals)`: both instances are built from
the same arguments, and the flag starts at `USE_A`. -/
def build (val : T) : DoubleBuf T :=
  { buffer := Buffer.USE_A, m_a := val, m_b := val }

/-- Model of `DoubleBuf::swap()`: flip the role flag. -/
def swap (d : DoubleBuf T) : DoubleBuf T :=
  match d.buffer with
  | Buffer.USE_A => { d with buffer := Buffer.USE_B }
  | Buffer.USE_B => { d with buffer := Buffer.USE_A }

/-- Model of `DoubleBuf::read()`: `USE_A -> m_a`, `USE_B -> m_b`. -/
def read (d : DoubleBuf T) : T :=
  match d.buffer with
  | Buffer.USE_A => d.m_a
  | Buffer.USE_B => d.m_b

/-- Model of `DoubleBuf::write()`: `USE_A -> m_b`, `USE_B -> m_a`. -/
def write (d : DoubleBuf T) : T :=
  match d.buffer with
  | Buffer.USE_A => d.m_b
  | Buffer.USE_B => d.m_a

/-- Identity of the two owned instances, for phrasing which instance a call
returns: slot `A` is the field `m_a`, slot `B` is the field `m_b`. -/
inductive Slot : Type
  | A
  | B
deriving DecidableEq, Repr

/-- Which owned instance `read()` currently returns. -/
def readSlot (d : DoubleBuf T) : Slot :=
  match d.buffer with
  | Buffer.USE_A => Slot.A
  | Buffer.USE_B => Slot.B

/-- Which owned instance `write()` currently returns. -/
def writeSlot (d : DoubleBuf T) : Slot :=
  match d.buffer with
  | Buffer.USE_A => Slot.B
  | Buffer.USE_B => Slot.A

/-- Replacing the contents of the instance currently designated as the
write target (how the engine stores freshly computed data). -/
def setWrite (d : DoubleBuf T) (v : T) : DoubleBuf T :=
  match d.buffer with
  | Buffer.USE_A => { d with m_b := v }
  | Buffer.USE_B => { d with m_a := v }

end DoubleBuf

/-! ## GravSim data model (`src/demos/nbody/sim.hpp`) -/

/-- Model of `distrib_cylinder<num_t>`: `radius`, `angle`, `height` are
2-vectors `(min, max)` accessed through `.x()` / `.y()`. -/
structure distrib_cylinder : Type where
  radius : ℝ × ℝ
  angle : ℝ × ℝ
  height : ℝ × ℝ
  speed : ℝ

/-- Model of `distrib_sphere<num_t>`. -/
structure distrib_sphere : Type where
  radius : ℝ × ℝ

/-- Model of `enum class force_t`. -/
inductive force_t : Type
  | GRAVITY
  | LENNARD_JONES
deriving DecidableEq, Repr

/-- Model of `enum class integrator_t`. -/
inductive integrator_t : Type
  | EULER
  | RK4
deriving DecidableEq, Repr

/-- The gravity parameter block of `GravSim` (fields `G`, `damping`). -/
structure GravParams : Type where
  G : ℝ
  damping : ℝ

/-- The Lennard-Jones parameter block of `GravSim` (fields `eps`, `sigma`). -/
structure LjParams : Type where
  eps : ℝ
  sigma : ℝ

/-- One generation of body storage, `SyclBufs<vec3, vec3>`:
buffer 0 holds velocities and buffer 1 holds positions, idealized as total
functions from body index to value. -/
structure BodySet : Type where
  vel : Nat → Vec3
  pos : Nat → Vec3

/-- Model of the `GravSim<num_t>` state (the SYCL queue is external I/O
machinery and carries no simulation state). -/
structure GravSim : Type where
  m_bufs : DoubleBuf BodySet
  m_n_bodies : Nat
  m_time : ℝ
  m_force : force_t
  m_grav_params : GravParams
  m_lj_params : LjParams
  m_integrator : integrator_t

/-- The fixed time step: `static constexpr num_t STEP_SIZE = num_t(.5)`. -/
noncomputable def STEP_SIZE : ℝ := 0.5

/-- The huge constant `num_t(1e24)` used for branch-free self-exclusion. -/
noncomputable def HUGE : ℝ := 1e24

namespace GravSim

/-- Model of the private base constructor `GravSim(size_t n_bodies)`: fresh
zeroed storage, `m_time = 0`, `m_force = GRAVITY`, default force parameters.
The source leaves `m_integrator` uninitialized (indeterminate), so the model
takes its initial value as an explicit parameter `integ0`. -/
noncomputable def base (n_bodies : Nat) (integ0 : integrator_t) : GravSim :=
  { m_bufs := DoubleBuf.build { vel := fun _ => 0, pos := fun _ => 0 }
    m_n_bodies := n_bodies
    m_time := 0
    m_force := force_t.GRAVITY
    m_grav_params := { G := 1e-5, damping := 1e-5 }
    m_lj_params := { eps := 1, sigma := 1e-3 }
    m_integrator := integ0 }

/-- Storing sampler output for bodies `0 ≤ i < n` into the write generation
(indices past `n` keep their previous contents), as the constructors do via
host write accessors. -/
def writeBodies (d : DoubleBuf BodySet) (n : Nat) (f : Nat → Vec3 × Vec3) :
    DoubleBuf BodySet :=
  d.setWrite
    { vel := fun i => if i < n then (f i).1 else (d.write).vel i
      pos := fun i => if i < n then (f i).2 else (d.write).pos i }

/-- One iteration of the cylinder constructor loop for body `i`, returning
`(velocity, position)`. The stream is consumed in the fixed order
`unifr` (index `3*i`), `unifp` (index `3*i+1`), `unify` (index `3*i+2`):
`r = sqrt(unifr)`, `phi = unifp`; velocity `(-r·sin phi, 0, r·cos phi)`
scaled by `speed / radius.y`; position `(r·cos phi, unify, r·sin phi)`. -/
noncomputable def cylBody (params : distrib_cylinder) (s : Nat → ℝ) (i : Nat) :
    Vec3 × Vec3 :=
  let rmin := params.radius.1
  let rmax := params.radius.2
  let r := Real.sqrt (unif (rmin * rmin) (rmax * rmax) (s (3 * i)))
  let phi := unif params.angle.1 params.angle.2 (s (3 * i + 1))
  let v : Vec3 := (params.speed / params.radius.2) •
    ((-r * Real.sin phi, 0, r * Real.cos phi) : Vec3)
  let p : Vec3 :=
    (r * Real.cos phi, unif params.height.1 params.height.2 (s (3 * i + 2)),
      r * Real.sin phi)
  (v, p)

/-- Model of the public constructor
`GravSim(size_t n_bodies, distrib_cylinder<num_t> params)`: delegate to the
base constructor, fill the write generation from the cylinder sampler, swap
so the new data becomes the read generation, and reset the time to 0. -/
noncomputable def mkCylinder (n_bodies : Nat) (params : distrib_cylinder)
    (s : Nat → ℝ) (integ0 : integrator_t) : GravSim :=
  let g := base n_bodies integ0
  { g with
    m_bufs := (writeBodies g.m_bufs n_bodies (cylBody params s)).swap
    m_time := 0 }

/-- One iteration of the sphere constructor loop for body `i`, returning
`(velocity, position)`. The stream is consumed in the fixed order
`unifu` (index `3*i`), `unifcost` (index `3*i+1`), `unifp` (index `3*i+2`):
`r = unifu^(1/3)`, `cost = unifcost`, `sint = sqrt(1 - cost²)`,
`phi = unifp` drawn from `[0, 2·3.141592]`; velocity is the zero vector and
position is `(r·sint·cos phi, r·sint·sin phi, r·cost)`. -/
noncomputable def sphereBody (params : distrib_sphere) (s : Nat → ℝ) (i : Nat) :
    Vec3 × Vec3 :=
  let rmin := params.radius.1
  let rmax := params.radius.2
  let r := (unif (rmin * rmin * rmin) (rmax * rmax * rmax) (s (3 * i))) ^
    ((1 : ℝ) / 3)
  let cost := unif (-1) 1 (s (3 * i + 1))
  let sint := Real.sqrt (1 - cost * cost)
  let phi := unif 0 (2 * 3.141592) (s (3 * i + 2))
  ((0 : Vec3),
    (r * sint * Real.cos phi, r * sint * Real.sin phi, r * cost))

/-- Model of the public constructor
`GravSim(size_t n_bodies, distrib_sphere<num_t> params)`. -/
noncomputable def mkSphere (n_bodies : Nat) (params : distrib_sphere)
    (s : Nat → ℝ) (integ0 : integrator_t) : GravSim :=
  let g := base n_bodies integ0
  { g with
    m_bufs := (writeBodies g.m_bufs n_bodies (sphereBody params s)).swap
    m_time := 0 }

/-- Model of `set_force_type`. -/
def set_force_type (g : GravSim) (force : force_t) : GravSim :=
  { g with m_force := force }

/-- Model of `set_integrator`. -/
def set_integrator (g : GravSim) (integrator : integrator_t) : GravSim :=
  { g with m_integrator := integrator }

/-- Model of `set_grav_damping`. -/
def set_grav_damping (g : GravSim) (damping : ℝ) : GravSim :=
  { g with m_grav_params := { g.m_grav_params with damping := damping } }

/-- Model of `set_grav_G`. -/
def set_grav_G (g : GravSim) (G : ℝ) : GravSim :=
  { g with m_grav_params := { g.m_grav_params with G := G } }

/-- Model of `set_lj_eps`. -/
def set_lj_eps (g : GravSim) (eps : ℝ) : GravSim :=
  { g with m_lj_params := { g.m_lj_params with eps := eps } }

/-- Model of `set_lj_sigma`. -/
def set_lj_sigma (g : GravSim) (sigma : ℝ) : GravSim :=
  { g with m_lj_params := { g.m_lj_params with sigma := sigma } }

end GravSim

/-! ## Force models and integrators -/

/-- Loop body of the `grav` lambda in the GRAVITY kernel of
`GravSim::internal_step`, the contribution of loop index `i` to the
acceleration on the body with linear id `id` at query position `x`:
`diff := pos[i] - x; r := sqrt(diff.x² + diff.y² + diff.z²);
diff / (r*r*r + 1e24·[i == id] + damping)`. -/
noncomputable def gravTerm (pos : Nat → Vec3) (id : Nat) (damping : ℝ)
    (x : Vec3) (i : Nat) : Vec3 :=
  let diff := pos i - x
  let r := Real.sqrt (diff.x * diff.x + diff.y * diff.y + diff.z * diff.z)
  diff / (r * r * r + HUGE * (if i = id then 1 else 0) + damping)

/-- Model of the `grav` lambda of the GRAVITY kernel, continued:
`G * acc` where `acc` accumulates `gravTerm` over `i in [0, n_bodies)`. -/
noncomputable def grav (n_bodies : Nat) (pos : Nat → Vec3) (id : Nat)
    (G damping : ℝ) (x : Vec3) : Vec3 :=
  G • (List.range n_bodies).foldl
    (fun acc i => acc + gravTerm pos id damping x i) 0

/-- The displacement `diff := pos[i] - x` of the Lennard-Jones kernel loop. -/
noncomputable def ljDiff (pos : Nat → Vec3) (x : Vec3) (i : Nat) : Vec3 :=
  pos i - x

/-- The self-excluded distance of the Lennard-Jones kernel loop:
`r := sqrt(diff.x² + diff.y² + diff.z²) + 1e24·[i == id]`. -/
noncomputable def ljR (pos : Nat → Vec3) (id : Nat) (x : Vec3) (i : Nat) : ℝ :=
  let diff := ljDiff pos x i
  Real.sqrt (diff.x * diff.x + diff.y * diff.y + diff.z * diff.z) +
    HUGE * (if i = id then 1 else 0)

/-- Model of the `force` lambda in the LENNARD_JONES kernel of
`GravSim::internal_step`: the loop
`for i in [0, n_bodies): acc += pow(r,-8)·diff - 2·pow(r,-14)·diff`
followed by `A * acc`. The constant `A = 24·eps·sigma` is computed by the
caller before the kernel launch. -/
noncomputable def force (n_bodies : Nat) (pos : Nat → Vec3) (id : Nat)
    (A : ℝ) (x : Vec3) : Vec3 :=
  A • (List.range n_bodies).foldl
    (fun acc i =>
      acc + (ljR pos id x i ^ (-8 : ℤ)) • ljDiff pos x i -
        (2 * ljR pos id x i ^ (-14 : ℤ)) • ljDiff pos x i)
    0

/-! ## Spec-modelled configuration checking (§7 of the spec) -/

/-- Modelled from the spec: the ConfigurationError class of §7. The source
under `src/` contains no error type for configuration problems; this type
stands for the error the spec says should be reported. -/
inductive ConfigError : Type
  | badConfig
deriving DecidableEq, Repr

/-- Modelled from the spec: a cylinder construction that detects
`n_bodies == 0` or a range parameter with `min > max` (radius, angle, or
height) at the construction call and reports a ConfigurationError, making
no usable instance in that case. -/
noncomputable def checkedMkCylinder (n_bodies : Nat) (params : distrib_cylinder)
    (s : Nat → ℝ) (integ0 : integrator_t) : Except ConfigError GravSim :=
  if n_bodies = 0 ∨ params.radius.2 < params.radius.1 ∨
      params.angle.2 < params.angle.1 ∨ params.height.2 < params.height.1 then
    Except.error ConfigError.badConfig
  else
    Except.ok (GravSim.mkCylinder n_bodies params s integ0)

/-- Modelled from the spec: a sphere construction that detects
`n_bodies == 0` or a radius range with `min > max` at the construction call
and reports a ConfigurationError. -/
noncomputable def checkedMkSphere (n_bodies : Nat) (params : distrib_sphere)
    (s : Nat → ℝ) (integ0 : integrator_t) : Except ConfigError GravSim :=
  if n_bodies = 0 ∨ params.radius.2 < params.radius.1 then
    Except.error ConfigError.badConfig
  else
    Except.ok (GravSim.mkSphere n_bodies params s integ0)

/-- Modelled from the spec: `integrate_step_euler` lives in `integrator.hpp`,
which is not under `src/`; only its call sites are. Per the spec (§4.4),
`v1 = v0 + dt·force_fn(v0, p0, t0)`, `p1 = p0 + dt·v1` (semi-implicit:
the position update uses the newly computed velocity), `t1 = t0 + dt`. -/
noncomputable def integrate_step_euler (force_fn : Vec3 → Vec3 → ℝ → Vec3)
    (dt : ℝ) (v0 p0 : Vec3) (t0 : ℝ) : Vec3 × Vec3 × ℝ :=
  let v1 := v0 + dt • force_fn v0 p0 t0
  (v1, p0 + dt • v1, t0 + dt)

/-- Modelled from the spec: `integrate_step_rk4` lives in `integrator.hpp`,
which is not under `src/`. Per the spec (§4.4), the coupled system
`dv/dt = force_fn(v, p, t)`, `dp/dt = v` is advanced with four stage
evaluations at `t0, t0 + dt/2, t0 + dt/2, t0 + dt` using the standard
midpoint/endpoint construction and combined with weights `1, 2, 2, 1`
scaled by `dt/6`. -/
noncomputable def integrate_step_rk4 (force_fn : Vec3 → Vec3 → ℝ → Vec3)
    (dt : ℝ) (v0 p0 : Vec3) (t0 : ℝ) : Vec3 × Vec3 × ℝ :=
  let k1v := force_fn v0 p0 t0
  let k1p := v0
  let k2v := force_fn (v0 + (dt / 2) • k1v) (p0 + (dt / 2) • k1p) (t0 + dt / 2)
  let k2p := v0 + (dt / 2) • k1v
  let k3v := force_fn (v0 + (dt / 2) • k2v) (p0 + (dt / 2) • k2p) (t0 + dt / 2)
  let k3p := v0 + (dt / 2) • k2v
  let k4v := force_fn (v0 + dt • k3v) (p0 + dt • k3p) (t0 + dt)
  let k4p := v0 + dt • k3v
  (v0 + (dt / 6) • (k1v + (2 : ℝ) • k2v + (2 : ℝ) • k3v + k4v),
    p0 + (dt / 6) • (k1p + (2 : ℝ) • k2p + (2 : ℝ) • k3p + k4p),
    t0 + dt)

namespace GravSim

/-- The per-body update performed by the kernels of
`GravSim::internal_step`: read `vel[id]`, `pos[id]` from the read
generation, evaluate the selected force model as a closure over the full
read-generation position array, and apply the selected integrator with
`dt = STEP_SIZE` at the current time; the resulting `(v1, p1)` is written
to the write generation at index `id` (the returned `t1` is discarded via
`std::ignore`). -/
noncomputable def bodyUpdate (g : GravSim) (id : Nat) : Vec3 × Vec3 :=
  let reads := g.m_bufs.read
  let force_fn : Vec3 → Vec3 → ℝ → Vec3 :=
    match g.m_force with
    | force_t.GRAVITY => fun _ x _ =>
        grav g.m_n_bodies reads.pos id g.m_grav_params.G
          g.m_grav_params.damping x
    | force_t.LENNARD_JONES => fun _ x _ =>
        force g.m_n_bodies reads.pos id
          (24 * g.m_lj_params.eps * g.m_lj_params.sigma) x
  match g.m_integrator with
  | integrator_t.EULER =>
      let r := integrate_step_euler force_fn STEP_SIZE (reads.vel id)
        (reads.pos id) g.m_time
      (r.1, r.2.1)
  | integrator_t.RK4 =>
      let r := integrate_step_rk4 force_fn STEP_SIZE (reads.vel id)
        (reads.pos id) g.m_time
      (r.1, r.2.1)

/-- Model of `GravSim::internal_step`: run the per-body kernel for every
id in `[0, n_bodies)`, writing into the write generation; after the kernel
completes, `m_bufs.swap()` and `m_time += STEP_SIZE`. -/
noncomputable def internal_step (g : GravSim) : GravSim :=
  { g with
    m_bufs := (writeBodies g.m_bufs g.m_n_bodies g.bodyUpdate).swap
    m_time := g.m_time + STEP_SIZE }

end GravSim

/-! ## Helper lemmas -/

/-- Accumulating a loop body over `List.range n` is the finite sum. -/
theorem foldl_add_eq {M : Type} [AddCommMonoid M] (f : Nat → M) (a : M)
    (n : Nat) :
    (List.range n).foldl (fun acc i => acc + f i) a =
      a + ∑ i ∈ Finset.range n, f i := by
  induction n with
  | zero => simp
  | succ n ih =>
      rw [List.range_succ, List.foldl_append, ih, List.foldl_cons,
        List.foldl_nil, Finset.sum_range_succ, add_assoc]

/-- Componentwise division by a scalar is scaling by its reciprocal. -/
theorem vec3_div_eq_smul (v : Vec3) (c : ℝ) : v / c = (1 / c) • v := by
  obtain ⟨a, b, d⟩ := v
  show (a / c, b / c, d / c) = (1 / c) • ((a, b, d) : Vec3)
  rw [Prod.smul_mk, Prod.smul_mk, smul_eq_mul, smul_eq_mul, smul_eq_mul,
    Prod.mk.injEq, Prod.mk.injEq]
  exact ⟨by ring, by ring, by ring⟩

/-- Replacing the write-target contents does not touch the role flag. -/
theorem DoubleBuf.setWrite_buffer {T : Type} (d : DoubleBuf T) (v : T) :
    (d.setWrite v).buffer = d.buffer := by
  obtain ⟨b, xa, xb⟩ := d
  cases b <;> rfl

/-- A swap changes the role flag. -/
theorem DoubleBuf.swap_buffer_ne {T : Type} (d : DoubleBuf T) :
    d.swap.buffer ≠ d.buffer := by
  obtain ⟨b, xa, xb⟩ := d
  cases b <;> simp [DoubleBuf.swap]

/-- The role flag after a swap depends only on the previous role flag. -/
theorem DoubleBuf.swap_setWrite_buffer {T : Type} (d : DoubleBuf T) (v : T) :
    ((d.setWrite v).swap).buffer = d.swap.buffer := by
  obtain ⟨b, xa, xb⟩ := d
  cases b <;> rfl

/-- Storing kernel output and then swapping flips the role flag exactly as
a bare swap does. -/
theorem GravSim.writeBodies_swap_buffer (d : DoubleBuf BodySet) (n : Nat)
    (f : Nat → Vec3 × Vec3) :
    ((GravSim.writeBodies d n f).swap).buffer = d.swap.buffer :=
  DoubleBuf.swap_setWrite_buffer d _

/-- A uniform draw with `a ≤ b` from a unit draw in `[0, 1]` lies in
`[a, b]`. -/
theorem unif_le {a b u : ℝ} (hab : a ≤ b) (h0 : 0 ≤ u) (h1 : u ≤ 1) :
    a ≤ unif a b u ∧ unif a b u ≤ b := by
  unfold unif
  constructor
  · nlinarith [mul_nonneg h0 (sub_nonneg.mpr hab)]
  · nlinarith [mul_nonneg (sub_nonneg.mpr h1) (sub_nonneg.mpr hab)]

/-- The cube root (as the real power `1/3`) undoes cubing of a nonnegative
real. -/
theorem cube_root_self {a : ℝ} (ha : 0 ≤ a) : (a * a * a) ^ ((1 : ℝ) / 3) = a := by
  have h1 : a * a * a = a ^ (3 : ℕ) := by ring
  rw [h1, ← Real.rpow_natCast a 3, ← Real.rpow_mul ha]
  norm_num

/-- Division of a vector by equal scalars gives equal results. -/
theorem vec3_div_congr (v : Vec3) {a b : ℝ} (h : a = b) : v / a = v / b := by
  rw [h]

/-! ## Claim theorems -/

/-- C3: for every force function, time step and initial state, the Euler
integrator returns `v1 = v0 + dt·force_fn(v0, p0, t0)`,
`p1 = p0 + dt·v1` where `v1` is the newly computed velocity (semi-implicit
convention), and `t1 = t0 + dt`. -/
theorem C3_euler_semi_implicit (force_fn : Vec3 → Vec3 → ℝ → Vec3)
    (dt : ℝ) (v0 p0 : Vec3) (t0 : ℝ) :
    (integrate_step_euler force_fn dt v0 p0 t0).1 =
        v0 + dt • force_fn v0 p0 t0 ∧
    (integrate_step_euler force_fn dt v0 p0 t0).2.1 =
        p0 + dt • (integrate_step_euler force_fn dt v0 p0 t0).1 ∧
    (integrate_step_euler force_fn dt v0 p0 t0).2.2 = t0 + dt :=
  ⟨rfl, rfl, rfl⟩

/-- C8: after construction, `read()` and `write()` refer to distinct
instances (and they stay distinct in every state); after one `swap()` the
instance previously returned by `write()` is returned by `read()` and the
previous read instance becomes the write target; two consecutive `swap()`
calls restore the original state, so the role assignment returns to its
original value (swap is an involution). -/
theorem C8_double_buffer_roles {T : Type} (val : T) (d : DoubleBuf T) :
    (DoubleBuf.build val).readSlot ≠ (DoubleBuf.build val).writeSlot ∧
    d.readSlot ≠ d.writeSlot ∧
    d.swap.readSlot = d.writeSlot ∧
    d.swap.writeSlot = d.readSlot ∧
    d.swap.swap = d := by
  obtain ⟨b, xa, xb⟩ := d
  refine ⟨by simp [DoubleBuf.build, DoubleBuf.readSlot, DoubleBuf.writeSlot],
    ?_, ?_, ?_, ?_⟩ <;>
    cases b <;>
      simp [DoubleBuf.readSlot, DoubleBuf.writeSlot, DoubleBuf.swap]

/-- C10: each parameter setter modifies only its named field: the body
buffers (hence all positions and velocities and the buffer role flag),
the simulation time, the body count, and every other selection or
parameter field are unchanged. -/
theorem C10_setters_frame (g : GravSim) (f : force_t) (it : integrator_t)
    (damping G eps sigma : ℝ) :
    ((g.set_force_type f).m_bufs = g.m_bufs ∧
      (g.set_force_type f).m_n_bodies = g.m_n_bodies ∧
      (g.set_force_type f).m_time = g.m_time ∧
      (g.set_force_type f).m_grav_params = g.m_grav_params ∧
      (g.set_force_type f).m_lj_params = g.m_lj_params ∧
      (g.set_force_type f).m_integrator = g.m_integrator ∧
      (g.set_force_type f).m_force = f) ∧
    ((g.set_integrator it).m_bufs = g.m_bufs ∧
      (g.set_integrator it).m_n_bodies = g.m_n_bodies ∧
      (g.set_integrator it).m_time = g.m_time ∧
      (g.set_integrator it).m_grav_params = g.m_grav_params ∧
      (g.set_integrator it).m_lj_params = g.m_lj_params ∧
      (g.set_integrator it).m_force = g.m_force ∧
      (g.set_integrator it).m_integrator = it) ∧
    ((g.set_grav_damping damping).m_bufs = g.m_bufs ∧
      (g.set_grav_damping damping).m_n_bodies = g.m_n_bodies ∧
      (g.set_grav_damping damping).m_time = g.m_time ∧
      (g.set_grav_damping damping).m_force = g.m_force ∧
      (g.set_grav_damping damping).m_integrator = g.m_integrator ∧
      (g.set_grav_damping damping).m_lj_params = g.m_lj_params ∧
      (g.set_grav_damping damping).m_grav_params.G = g.m_grav_params.G ∧
      (g.set_grav_damping damping).m_grav_params.damping = damping) ∧
    ((g.set_grav_G G).m_bufs = g.m_bufs ∧
      (g.set_grav_G G).m_n_bodies = g.m_n_bodies ∧
      (g.set_grav_G G).m_time = g.m_time ∧
      (g.set_grav_G G).m_force = g.m_force ∧
      (g.set_grav_G G).m_integrator = g.m_integrator ∧
      (g.set_grav_G G).m_lj_params = g.m_lj_params ∧
      (g.set_grav_G G).m_grav_params.damping = g.m_grav_params.damping ∧
      (g.set_grav_G G).m_grav_params.G = G) ∧
    ((g.set_lj_eps eps).m_bufs = g.m_bufs ∧
      (g.set_lj_eps eps).m_n_bodies = g.m_n_bodies ∧
      (g.set_lj_eps eps).m_time = g.m_time ∧
      (g.set_lj_eps eps).m_force = g.m_force ∧
      (g.set_lj_eps eps).m_integrator = g.m_integrator ∧
      (g.set_lj_eps eps).m_grav_params = g.m_grav_params ∧
      (g.set_lj_eps eps).m_lj_params.sigma = g.m_lj_params.sigma ∧
      (g.set_lj_eps eps).m_lj_params.eps = eps) ∧
    ((g.set_lj_sigma sigma).m_bufs = g.m_bufs ∧
      (g.set_lj_sigma sigma).m_n_bodies = g.m_n_bodies ∧
      (g.set_lj_sigma sigma).m_time = g.m_time ∧
      (g.set_lj_sigma sigma).m_force = g.m_force ∧
      (g.set_lj_sigma sigma).m_integrator = g.m_integrator ∧
      (g.set_lj_sigma sigma).m_grav_params = g.m_grav_params ∧
      (g.set_lj_sigma sigma).m_lj_params.eps = g.m_lj_params.eps ∧
      (g.set_lj_sigma sigma).m_lj_params.sigma = sigma) := by
  exact ⟨⟨rfl, rfl, rfl, rfl, rfl, rfl, rfl⟩,
    ⟨rfl, rfl, rfl, rfl, rfl, rfl, rfl⟩,
    ⟨rfl, rfl, rfl, rfl, rfl, rfl, rfl, rfl⟩,
    ⟨rfl, rfl, rfl, rfl, rfl, rfl, rfl, rfl⟩,
    ⟨rfl, rfl, rfl, rfl, rfl, rfl, rfl, rfl⟩,
    ⟨rfl, rfl, rfl, rfl, rfl, rfl, rfl, rfl⟩⟩

/-- A concrete invalid configuration: radius range with `min = 1 > 0 = max`
(and it is used below with `n_bodies = 0`). -/
def badCyl : distrib_cylinder :=
  { radius := (1, 0), angle := (0, 0), height := (0, 0), speed := 1 }

/-- A concrete unit-draw stream that always returns `0`. -/
def zeroStream : Nat → ℝ := fun _ => 0

/-- C1, counterexample: at `n_bodies = 0` with a radius range whose min
exceeds its max, the spec-modelled checked construction reports a
ConfigurationError, but the source constructor completes normally — the
resulting instance has `m_time = 0`, and calling `internal_step` on it
works and advances time by `STEP_SIZE`, so the instance is usable and no
error is detected or reported anywhere in the code. -/
theorem C1_counterexample :
    checkedMkCylinder 0 badCyl zeroStream integrator_t.EULER =
        Except.error ConfigError.badConfig ∧
    (GravSim.mkCylinder 0 badCyl zeroStream integrator_t.EULER).m_n_bodies
        = 0 ∧
    (GravSim.mkCylinder 0 badCyl zeroStream integrator_t.EULER).m_time = 0 ∧
    ((GravSim.mkCylinder 0 badCyl zeroStream
        integrator_t.EULER).internal_step).m_time = STEP_SIZE := by
  refine ⟨?_, rfl, rfl, ?_⟩
  · rw [checkedMkCylinder, if_pos (Or.inl rfl)]
  · show (0 : ℝ) + STEP_SIZE = STEP_SIZE
    rw [zero_add]

/-- C1, amended: the source performs no configuration validation at all.
For every input — including `n_bodies = 0` and range parameters with
`min > max` — both constructors complete normally, record the requested
body count, reset the time to `0`, and yield an instance on which
`internal_step` operates normally; no ConfigurationError is raised or
recorded. -/
theorem C1_no_validation (n : Nat) (pc : distrib_cylinder)
    (ps : distrib_sphere) (s : Nat → ℝ) (integ0 : integrator_t) :
    (GravSim.mkCylinder n pc s integ0).m_n_bodies = n ∧
    (GravSim.mkCylinder n pc s integ0).m_time = 0 ∧
    ((GravSim.mkCylinder n pc s integ0).internal_step).m_time = STEP_SIZE ∧
    (GravSim.mkSphere n ps s integ0).m_n_bodies = n ∧
    (GravSim.mkSphere n ps s integ0).m_time = 0 ∧
    ((GravSim.mkSphere n ps s integ0).internal_step).m_time = STEP_SIZE := by
  refine ⟨rfl, rfl, ?_, rfl, rfl, ?_⟩ <;>
    · show (0 : ℝ) + STEP_SIZE = STEP_SIZE
      rw [zero_add]

/-- C2: the samplers are deterministic functions of
`(n, params, random_source)`: two runs of the cylinder or the sphere
construction with identical parameters that consume pointwise-identical
random streams produce identical engine states, in particular bit-identical
position and velocity arrays. -/
theorem C2_sampler_determinism (n : Nat) (pc : distrib_cylinder)
    (ps : distrib_sphere) (s1 s2 : Nat → ℝ) (integ0 : integrator_t)
    (h : ∀ k, s1 k = s2 k) :
    GravSim.mkCylinder n pc s1 integ0 = GravSim.mkCylinder n pc s2 integ0 ∧
    GravSim.mkSphere n ps s1 integ0 = GravSim.mkSphere n ps s2 integ0 := by
  have hs : s1 = s2 := funext h
  rw [hs]
  exact ⟨rfl, rfl⟩

/-- A second concrete stream, pointwise equal to `zeroStream` but not
definitionally identical to it. -/
noncomputable def zeroStream' : Nat → ℝ := fun k => 0 * (k : ℝ)

/-- C2, witness: two cylinder runs and two sphere runs on two concrete
pointwise-identical streams produce identical states. -/
theorem C2_sampler_determinism_witness :
    GravSim.mkCylinder 2 badCyl zeroStream integrator_t.EULER =
        GravSim.mkCylinder 2 badCyl zeroStream' integrator_t.EULER ∧
    GravSim.mkSphere 2 ⟨(0, 1)⟩ zeroStream integrator_t.EULER =
        GravSim.mkSphere 2 ⟨(0, 1)⟩ zeroStream' integrator_t.EULER :=
  C2_sampler_determinism 2 badCyl ⟨(0, 1)⟩ zeroStream zeroStream'
    integrator_t.EULER (fun k => by simp [zeroStream, zeroStream'])

/-- C9: a completed `internal_step` performs exactly one swap of the buffer
generations (the role flag afterward equals one application of `swap`, and
differs from the flag before) and advances `m_time` by exactly `STEP_SIZE`;
hence over `k` steps from any state time grows by `k·STEP_SIZE`, time is
strictly monotone in the step count, and from either constructor (which
resets time to `0`) time after `k` steps equals `k·STEP_SIZE`. -/
theorem C9_step_time_swap (g : GravSim) (n : Nat) (pc : distrib_cylinder)
    (ps : distrib_sphere) (s : Nat → ℝ) (integ0 : integrator_t) :
    g.internal_step.m_time = g.m_time + STEP_SIZE ∧
    g.internal_step.m_bufs.buffer = g.m_bufs.swap.buffer ∧
    g.internal_step.m_bufs.buffer ≠ g.m_bufs.buffer ∧
    (∀ k : Nat, (GravSim.internal_step^[k] g).m_time =
      g.m_time + k * STEP_SIZE) ∧
    (∀ j k : Nat, j < k →
      (GravSim.internal_step^[j] g).m_time <
        (GravSim.internal_step^[k] g).m_time) ∧
    (∀ k : Nat, (GravSim.internal_step^[k]
        (GravSim.mkCylinder n pc s integ0)).m_time = k * STEP_SIZE) ∧
    (∀ k : Nat, (GravSim.internal_step^[k]
        (GravSim.mkSphere n ps s integ0)).m_time = k * STEP_SIZE) := by
  have hIter : ∀ (g' : GravSim) (k : Nat),
      (GravSim.internal_step^[k] g').m_time = g'.m_time + k * STEP_SIZE := by
    intro g' k
    induction k with
    | zero => simp
    | succ k ih =>
        rw [Function.iterate_succ_apply']
        show (GravSim.internal_step^[k] g').m_time + STEP_SIZE = _
        rw [ih]
        push_cast
        ring
  have hS : (0 : ℝ) < STEP_SIZE := by norm_num [STEP_SIZE]
  refine ⟨rfl, ?_, ?_, hIter g, ?_, ?_, ?_⟩
  · show ((GravSim.writeBodies g.m_bufs g.m_n_bodies g.bodyUpdate).swap).buffer
        = g.m_bufs.swap.buffer
    exact GravSim.writeBodies_swap_buffer g.m_bufs _ _
  · show ((GravSim.writeBodies g.m_bufs g.m_n_bodies g.bodyUpdate).swap).buffer
        ≠ g.m_bufs.buffer
    rw [GravSim.writeBodies_swap_buffer g.m_bufs _ _]
    exact DoubleBuf.swap_buffer_ne g.m_bufs
  · intro j k hjk
    rw [hIter g j, hIter g k]
    have : (j : ℝ) < (k : ℝ) := by exact_mod_cast hjk
    have := mul_lt_mul_of_pos_right this hS
    linarith
  · intro k
    rw [hIter (GravSim.mkCylinder n pc s integ0) k]
    show (0 : ℝ) + k * STEP_SIZE = k * STEP_SIZE
    rw [zero_add]
  · intro k
    rw [hIter (GravSim.mkSphere n ps s integ0) k]
    show (0 : ℝ) + k * STEP_SIZE = k * STEP_SIZE
    rw [zero_add]

/-- C4: for every body index `i`, read-generation position array `pos`, and
parameters `G` and `damping`, the gravity force model evaluated at the
position of body `i` returns
`G · Σ_{j < n} (pos j − pos i) / (|pos j − pos i|³ + damping + HUGE·[j = i])`,
where the huge constant is added only to the self term. -/
theorem C4_gravity_acceleration (n : Nat) (pos : Nat → Vec3) (i : Nat)
    (G damping : ℝ) :
    grav n pos i G damping (pos i) =
      G • ∑ j ∈ Finset.range n,
        (pos j - pos i) /
          (norm3 (pos j - pos i) ^ 3 + damping +
            HUGE * (if j = i then 1 else 0)) := by
  rw [grav, foldl_add_eq, zero_add]
  congr 1
  refine Finset.sum_congr rfl fun j _ => ?_
  simp only [gravTerm, norm3]
  exact vec3_div_congr _ (by ring)

/-- C5: for every body index `i`, read-generation position array `pos`, and
parameters `eps` and `sigma`, the Lennard-Jones force model evaluated at
the position of body `i` with `A = 24·eps·sigma` returns
`A · Σ_{j < n} (r⁻⁸ − 2·r⁻¹⁴)·(pos j − pos i)` with
`r = |pos j − pos i| + HUGE·[j = i]`. -/
theorem C5_lennard_jones_acceleration (n : Nat) (pos : Nat → Vec3) (i : Nat)
    (eps sigma : ℝ) :
    force n pos i (24 * eps * sigma) (pos i) =
      (24 * eps * sigma) • ∑ j ∈ Finset.range n,
        ((norm3 (pos j - pos i) + HUGE * (if j = i then 1 else 0)) ^ (-8 : ℤ) -
            2 * (norm3 (pos j - pos i) +
              HUGE * (if j = i then 1 else 0)) ^ (-14 : ℤ)) •
          (pos j - pos i) := by
  rw [force]
  have hb : (fun (acc : Vec3) j =>
        acc + (ljR pos i (pos i) j ^ (-8 : ℤ)) • ljDiff pos (pos i) j -
          (2 * ljR pos i (pos i) j ^ (-14 : ℤ)) • ljDiff pos (pos i) j) =
      fun (acc : Vec3) j =>
        acc + ((ljR pos i (pos i) j ^ (-8 : ℤ)) • ljDiff pos (pos i) j -
          (2 * ljR pos i (pos i) j ^ (-14 : ℤ)) • ljDiff pos (pos i) j) := by
    funext acc j
    rw [add_sub_assoc]
  rw [hb, foldl_add_eq, zero_add]
  congr 1
  refine Finset.sum_congr rfl fun j _ => ?_
  rw [sub_smul]
  simp only [ljR, ljDiff, norm3]

/-- C7: for every sphere parameter set with `0 ≤ rmin ≤ rmax` and every
sampled body (the relevant unit draws lying in `[0, 1]`), the returned
position `p` satisfies `rmin ≤ |p| ≤ rmax` and the returned velocity is the
zero vector. -/
theorem C7_sphere_sampler (params : distrib_sphere) (s : Nat → ℝ) (i : Nat)
    (h0 : 0 ≤ params.radius.1) (h1 : params.radius.1 ≤ params.radius.2)
    (hu0 : 0 ≤ s (3 * i)) (hu1 : s (3 * i) ≤ 1)
    (hc0 : 0 ≤ s (3 * i + 1)) (hc1 : s (3 * i + 1) ≤ 1) :
    params.radius.1 ≤ norm3 (GravSim.sphereBody params s i).2 ∧
    norm3 (GravSim.sphereBody params s i).2 ≤ params.radius.2 ∧
    (GravSim.sphereBody params s i).1 = (0 : Vec3) := by
  have hrmax0 : (0 : ℝ) ≤ params.radius.2 := le_trans h0 h1
  have hcube : params.radius.1 * params.radius.1 * params.radius.1 ≤
      params.radius.2 * params.radius.2 * params.radius.2 := by
    nlinarith [mul_nonneg h0 h0, mul_nonneg h0 hrmax0,
      mul_nonneg hrmax0 hrmax0,
      mul_nonneg (sub_nonneg.mpr h1) (mul_nonneg h0 h0),
      mul_nonneg (sub_nonneg.mpr h1) (mul_nonneg h0 hrmax0),
      mul_nonneg (sub_nonneg.mpr h1) (mul_nonneg hrmax0 hrmax0)]
  have hu := unif_le hcube hu0 hu1
  have hc := unif_le (by norm_num : (-1 : ℝ) ≤ 1) hc0 hc1
  set u := unif (params.radius.1 * params.radius.1 * params.radius.1)
    (params.radius.2 * params.radius.2 * params.radius.2) (s (3 * i))
    with hu_def
  set cost := unif (-1) 1 (s (3 * i + 1)) with hcost_def
  set phi := unif 0 (2 * 3.141592) (s (3 * i + 2)) with hphi_def
  set r := u ^ ((1 : ℝ) / 3) with hr_def
  have hsnd : (GravSim.sphereBody params s i).2 =
      (r * Real.sqrt (1 - cost * cost) * Real.cos phi,
        r * Real.sqrt (1 - cost * cost) * Real.sin phi, r * cost) := rfl
  have hfst : (GravSim.sphereBody params s i).1 = (0 : Vec3) := rfl
  have hmin3 : (0 : ℝ) ≤
      params.radius.1 * params.radius.1 * params.radius.1 := by nlinarith
  have hu_nonneg : (0 : ℝ) ≤ u := le_trans hmin3 hu.1
  have hr0 : 0 ≤ r := Real.rpow_nonneg hu_nonneg _
  have hcc : cost * cost ≤ 1 := by nlinarith [hc.1, hc.2]
  have hnorm : norm3 (GravSim.sphereBody params s i).2 = r := by
    rw [hsnd]
    simp only [norm3, Vec3.x, Vec3.y, Vec3.z]
    have hsint : Real.sqrt (1 - cost * cost) * Real.sqrt (1 - cost * cost)
        = 1 - cost * cost := Real.mul_self_sqrt (by linarith)
    have hpyth : Real.cos phi * Real.cos phi + Real.sin phi * Real.sin phi
        = 1 := by
      have h := Real.cos_sq_add_sin_sq phi
      nlinarith [h]
    have hsum : r * Real.sqrt (1 - cost * cost) * Real.cos phi *
          (r * Real.sqrt (1 - cost * cost) * Real.cos phi) +
        r * Real.sqrt (1 - cost * cost) * Real.sin phi *
          (r * Real.sqrt (1 - cost * cost) * Real.sin phi) +
        r * cost * (r * cost) = r * r := by
      have expand : r * Real.sqrt (1 - cost * cost) * Real.cos phi *
            (r * Real.sqrt (1 - cost * cost) * Real.cos phi) +
          r * Real.sqrt (1 - cost * cost) * Real.sin phi *
            (r * Real.sqrt (1 - cost * cost) * Real.sin phi) +
          r * cost * (r * cost) =
          r * r * ((Real.sqrt (1 - cost * cost) * Real.sqrt (1 - cost * cost))
              * (Real.cos phi * Real.cos phi + Real.sin phi * Real.sin phi)) +
            r * r * (cost * cost) := by ring
      rw [expand, hsint, hpyth, mul_one]
      ring
    rw [hsum, Real.sqrt_mul_self hr0]
  refine ⟨?_, ?_, hfst⟩
  · rw [hnorm]
    calc params.radius.1
        = (params.radius.1 * params.radius.1 * params.radius.1) ^
            ((1 : ℝ) / 3) := (cube_root_self h0).symm
      _ ≤ u ^ ((1 : ℝ) / 3) :=
          Real.rpow_le_rpow hmin3 hu.1 (by norm_num)
  · rw [hnorm]
    calc r = u ^ ((1 : ℝ) / 3) := rfl
      _ ≤ (params.radius.2 * params.radius.2 * params.radius.2) ^
            ((1 : ℝ) / 3) :=
          Real.rpow_le_rpow hu_nonneg hu.2 (by norm_num)
      _ = params.radius.2 := cube_root_self (le_trans h0 h1)

/-- Cylinder parameters that satisfy the validity condition as the claim
states it (radius and height ranges each have `min ≤ max`) but carry a
negative radius minimum and a negative speed. -/
def badCyl2 : distrib_cylinder :=
  { radius := (-2, 1), angle := (0, 0), height := (0, 0), speed := -1 }

/-- C6, counterexample: with radius range `[-2, 1]` (min ≤ max), height
range `[0, 0]`, speed `-1` and the all-zero stream, body 0 is sampled with
radial component `sqrt(x² + z²) = 2`, which exceeds `rmax = 1`, and its
velocity magnitude is `2` while `speed · r / rmax = -2`; the claim as
stated is false for this valid-per-the-claim parameter set. -/
theorem C6_counterexample :
    badCyl2.radius.1 ≤ badCyl2.radius.2 ∧
    badCyl2.height.1 ≤ badCyl2.height.2 ∧
    ¬ (Real.sqrt (Vec3.x (GravSim.cylBody badCyl2 zeroStream 0).2 ^ 2 +
        Vec3.z (GravSim.cylBody badCyl2 zeroStream 0).2 ^ 2) ≤
      badCyl2.radius.2) ∧
    ¬ (norm3 (GravSim.cylBody badCyl2 zeroStream 0).1 =
        badCyl2.speed *
          Real.sqrt (Vec3.x (GravSim.cylBody badCyl2 zeroStream 0).2 ^ 2 +
            Vec3.z (GravSim.cylBody badCyl2 zeroStream 0).2 ^ 2) /
          badCyl2.radius.2) := by
  have hu : unif ((-2 : ℝ) * -2) (1 * 1) (zeroStream (3 * 0)) = 4 := by
    norm_num [unif, zeroStream]
  have hphi : unif (0 : ℝ) 0 (zeroStream (3 * 0 + 1)) = 0 := by
    norm_num [unif, zeroStream]
  have hyv : unif (0 : ℝ) 0 (zeroStream (3 * 0 + 2)) = 0 := by
    norm_num [unif, zeroStream]
  have hs4 : Real.sqrt 4 = 2 := by
    rw [show (4 : ℝ) = 2 ^ 2 by norm_num]
    exact Real.sqrt_sq (by norm_num)
  have hp : (GravSim.cylBody badCyl2 zeroStream 0).2 = ((2 : ℝ), 0, 0) := by
    show (Real.sqrt (unif ((-2 : ℝ) * -2) (1 * 1) (zeroStream (3 * 0))) *
        Real.cos (unif 0 0 (zeroStream (3 * 0 + 1))),
      unif 0 0 (zeroStream (3 * 0 + 2)),
      Real.sqrt (unif ((-2 : ℝ) * -2) (1 * 1) (zeroStream (3 * 0))) *
        Real.sin (unif 0 0 (zeroStream (3 * 0 + 1)))) = ((2 : ℝ), 0, 0)
    rw [hu, hphi, hyv, hs4, Real.cos_zero, Real.sin_zero]
    norm_num
  have hv : (GravSim.cylBody badCyl2 zeroStream 0).1 = ((0 : ℝ), 0, -2) := by
    show ((-1 : ℝ) / 1) •
        ((-Real.sqrt (unif ((-2 : ℝ) * -2) (1 * 1) (zeroStream (3 * 0))) *
            Real.sin (unif 0 0 (zeroStream (3 * 0 + 1))), (0 : ℝ),
          Real.sqrt (unif ((-2 : ℝ) * -2) (1 * 1) (zeroStream (3 * 0))) *
            Real.cos (unif 0 0 (zeroStream (3 * 0 + 1)))) : Vec3) =
      ((0 : ℝ), 0, -2)
    rw [hu, hphi, hs4, Real.cos_zero, Real.sin_zero]
    norm_num [Prod.smul_mk, smul_eq_mul]
  refine ⟨by norm_num [badCyl2], by norm_num [badCyl2], ?_, ?_⟩
  · rw [hp]
    norm_num [badCyl2, Vec3.x, Vec3.z, hs4]
  · rw [hv, hp]
    norm_num [badCyl2, Vec3.x, Vec3.y, Vec3.z, norm3, hs4]

/-- C6, amended: for every cylinder parameter set with `0 ≤ rmin ≤ rmax`,
`height_min ≤ height_max` and `speed ≥ 0` (the claim omitted the
nonnegativity of the radius minimum and of the speed), and every sampled
body (its unit draws lying in `[0, 1]`), the radial component
`sqrt(x² + z²)` of the position lies in `[rmin, rmax]`, the height
component lies in `[height_min, height_max]`, and the velocity is
horizontal and tangential with magnitude `speed · r / rmax` where `r` is
the radial component. -/
theorem C6_cylinder_sampler (params : distrib_cylinder) (s : Nat → ℝ)
    (i : Nat)
    (h0 : 0 ≤ params.radius.1) (h1 : params.radius.1 ≤ params.radius.2)
    (hh : params.height.1 ≤ params.height.2) (hs : 0 ≤ params.speed)
    (hu0 : 0 ≤ s (3 * i)) (hu1 : s (3 * i) ≤ 1)
    (hy0 : 0 ≤ s (3 * i + 2)) (hy1 : s (3 * i + 2) ≤ 1) :
    params.radius.1 ≤
      Real.sqrt (Vec3.x (GravSim.cylBody params s i).2 ^ 2 +
        Vec3.z (GravSim.cylBody params s i).2 ^ 2) ∧
    Real.sqrt (Vec3.x (GravSim.cylBody params s i).2 ^ 2 +
        Vec3.z (GravSim.cylBody params s i).2 ^ 2) ≤ params.radius.2 ∧
    params.height.1 ≤ Vec3.y (GravSim.cylBody params s i).2 ∧
    Vec3.y (GravSim.cylBody params s i).2 ≤ params.height.2 ∧
    Vec3.y (GravSim.cylBody params s i).1 = 0 ∧
    Vec3.x (GravSim.cylBody params s i).1 *
        Vec3.x (GravSim.cylBody params s i).2 +
      Vec3.z (GravSim.cylBody params s i).1 *
        Vec3.z (GravSim.cylBody params s i).2 = 0 ∧
    norm3 (GravSim.cylBody params s i).1 =
      params.speed *
        Real.sqrt (Vec3.x (GravSim.cylBody params s i).2 ^ 2 +
          Vec3.z (GravSim.cylBody params s i).2 ^ 2) /
        params.radius.2 := by
  have hrmax0 : (0 : ℝ) ≤ params.radius.2 := le_trans h0 h1
  have hsq : params.radius.1 * params.radius.1 ≤
      params.radius.2 * params.radius.2 := by nlinarith
  have hu := unif_le hsq hu0 hu1
  have hy := unif_le hh hy0 hy1
  set u := unif (params.radius.1 * params.radius.1)
    (params.radius.2 * params.radius.2) (s (3 * i)) with hu_def
  set phi := unif params.angle.1 params.angle.2 (s (3 * i + 1)) with hphi_def
  set yv := unif params.height.1 params.height.2 (s (3 * i + 2)) with hyv_def
  set r := Real.sqrt u with hr_def
  set c := params.speed / params.radius.2 with hc_def
  have hp : (GravSim.cylBody params s i).2 =
      (r * Real.cos phi, yv, r * Real.sin phi) := rfl
  have hv : (GravSim.cylBody params s i).1 =
      (c * (-r * Real.sin phi), c * 0, c * (r * Real.cos phi)) := rfl
  have hr0 : 0 ≤ r := Real.sqrt_nonneg u
  have hcnn : 0 ≤ c := div_nonneg hs hrmax0
  have hrad : Real.sqrt (Vec3.x (GravSim.cylBody params s i).2 ^ 2 +
      Vec3.z (GravSim.cylBody params s i).2 ^ 2) = r := by
    rw [hp]
    show Real.sqrt ((r * Real.cos phi) ^ 2 + (r * Real.sin phi) ^ 2) = r
    rw [show (r * Real.cos phi) ^ 2 + (r * Real.sin phi) ^ 2 = r ^ 2 from by
      linear_combination r ^ 2 * Real.sin_sq_add_cos_sq phi]
    exact Real.sqrt_sq hr0
  have hrl : params.radius.1 ≤ r := by
    calc params.radius.1
        = Real.sqrt (params.radius.1 * params.radius.1) :=
          (Real.sqrt_mul_self h0).symm
      _ ≤ Real.sqrt u := Real.sqrt_le_sqrt hu.1
  have hru : r ≤ params.radius.2 := by
    calc r ≤ Real.sqrt (params.radius.2 * params.radius.2) :=
          Real.sqrt_le_sqrt hu.2
      _ = params.radius.2 := Real.sqrt_mul_self hrmax0
  refine ⟨?_, ?_, ?_, ?_, ?_, ?_, ?_⟩
  · rw [hrad]; exact hrl
  · rw [hrad]; exact hru
  · rw [hp]; exact hy.1
  · rw [hp]; exact hy.2
  · rw [hv]; exact mul_zero c
  · rw [hv, hp]
    show c * (-r * Real.sin phi) * (r * Real.cos phi) +
      c * (r * Real.cos phi) * (r * Real.sin phi) = 0
    ring
  · rw [hv, hrad]
    show Real.sqrt (c * (-r * Real.sin phi) * (c * (-r * Real.sin phi)) +
        c * 0 * (c * 0) + c * (r * Real.cos phi) * (c * (r * Real.cos phi)))
      = params.speed * r / params.radius.2
    rw [show c * (-r * Real.sin phi) * (c * (-r * Real.sin phi)) +
        c * 0 * (c * 0) + c * (r * Real.cos phi) * (c * (r * Real.cos phi))
        = c * r * (c * r) from by
      linear_combination c * r * (c * r) * Real.sin_sq_add_cos_sq phi]
    rw [Real.sqrt_mul_self (mul_nonneg hcnn hr0)]
    rw [hc_def, div_mul_eq_mul_div]

/-- Well-formed cylinder parameters for the C6 witness. -/
def cylW : distrib_cylinder :=
  { radius := (0, 1), angle := (0, 0), height := (0, 0), speed := 1 }

/-- C6, witness: the amended hypotheses hold for a concrete parameter set
and the all-zero stream, and there the sampled radial component is bounded
by `rmax`. -/
theorem C6_cylinder_sampler_witness :
    (0 : ℝ) ≤ cylW.radius.1 ∧ cylW.radius.1 ≤ cylW.radius.2 ∧
    cylW.height.1 ≤ cylW.height.2 ∧ (0 : ℝ) ≤ cylW.speed ∧
    Real.sqrt (Vec3.x (GravSim.cylBody cylW zeroStream 0).2 ^ 2 +
      Vec3.z (GravSim.cylBody cylW zeroStream 0).2 ^ 2) ≤ cylW.radius.2 :=
  ⟨le_refl 0, zero_le_one, le_refl 0, zero_le_one,
    (C6_cylinder_sampler cylW zeroStream 0 (le_refl 0) zero_le_one
      (le_refl 0) zero_le_one (le_refl 0) zero_le_one (le_refl 0)
      zero_le_one).2.1⟩

/-- C7, witness: the unit-radius sphere sampler on the all-zero stream at
body 0 satisfies the hypotheses and the radial bounds, and returns zero
velocity. -/
theorem C7_sphere_sampler_witness :
    (0 : ℝ) ≤ 0 ∧ (0 : ℝ) ≤ 1 ∧
    ((0 : ℝ) ≤ norm3 (GravSim.sphereBody ⟨(0, 1)⟩ zeroStream 0).2 ∧
      norm3 (GravSim.sphereBody ⟨(0, 1)⟩ zeroStream 0).2 ≤ 1 ∧
      (GravSim.sphereBody ⟨(0, 1)⟩ zeroStream 0).1 = (0 : Vec3)) :=
  ⟨le_refl 0, zero_le_one,
    C7_sphere_sampler ⟨(0, 1)⟩ zeroStream 0 (le_refl 0) zero_le_one
      (le_refl 0) zero_le_one (le_refl 0) zero_le_one⟩

/-- C9, witness: on a concrete one-body sphere engine, time after one step
strictly exceeds time after zero steps. -/
theorem C9_step_time_swap_witness :
    (0 : Nat) < 1 ∧
    (GravSim.internal_step^[0]
        (GravSim.mkSphere 1 ⟨(0, 1)⟩ zeroStream integrator_t.EULER)).m_time <
      (GravSim.internal_step^[1]
        (GravSim.mkSphere 1 ⟨(0, 1)⟩ zeroStream integrator_t.EULER)).m_time :=
  ⟨Nat.zero_lt_one,
    (C9_step_time_swap
        (GravSim.mkSphere 1 ⟨(0, 1)⟩ zeroStream integrator_t.EULER)
        1 badCyl ⟨(0, 1)⟩ zeroStream integrator_t.EULER).2.2.2.2.1
      0 1 Nat.zero_lt_one⟩

end NBody
